import Mathlib

/-!
# GenZ image-edit request pipeline: a shallow embedding

This file embeds the image-edit request pipeline of the GenZ repository in
Lean 4 and proves properties of it.

Sources embedded:
* the helper functions and the dispatcher of the latest rewrite of the
  Gemini module (the module the routes import as the generation
  dispatcher): data-URL stripping, base64 padding, the tolerant response
  extraction, the prompt guard, and the single-call dispatch;
* the HTTP route handlers of the generate endpoint and the listing
  endpoint, including the multer upload filter and limits;
* the record store, which is not part of the available source tree and is
  therefore modelled from the specification of the store contract.

JavaScript strings are modelled as Lean strings (sequences of characters);
`undefined`/`null` string fields become `Option String`, and JavaScript
string truthiness (`""` is falsy) is modelled explicitly.  Thrown
exceptions of the external service call are modelled with `Except`.
-/

namespace GenZ

/-! ## JavaScript string conventions -/

/-- Truthiness of a possibly-missing JavaScript string: `undefined`, `null`
and `""` are falsy, any other string is truthy. -/
def strTruthy : Option String → Bool
  | none => false
  | some s => s ≠ ""

/-- JavaScript `x || d` on a possibly-missing string: the default is used
when the value is missing or empty. -/
def jsOrStr (o : Option String) (d : String) : String :=
  match o with
  | some v => if v = "" then d else v
  | none => d

/-- The characters JavaScript `String.prototype.trim` removes: the
WhiteSpace production (TAB, VT, FF, SP, NBSP, ZWNBSP and the Zs category)
together with the LineTerminator production (LF, CR, LS, PS). -/
def jsSpace (c : Char) : Bool :=
  c.val = 0x9 ∨ c.val = 0xA ∨ c.val = 0xB ∨ c.val = 0xC ∨ c.val = 0xD ∨
  c.val = 0x20 ∨ c.val = 0xA0 ∨ c.val = 0x1680 ∨
  (0x2000 ≤ c.val ∧ c.val ≤ 0x200A) ∨
  c.val = 0x2028 ∨ c.val = 0x2029 ∨ c.val = 0x202F ∨ c.val = 0x205F ∨
  c.val = 0x3000 ∨ c.val = 0xFEFF

/-- JavaScript `s.trim()`: strip leading and trailing whitespace. -/
def jsTrim (s : String) : String :=
  String.mk (((s.data.dropWhile jsSpace).reverse.dropWhile jsSpace).reverse)

/-- The characters a JavaScript regular expression `.` (without the `s`
flag) refuses to match: the LineTerminator production. -/
def isLineTerm (c : Char) : Bool :=
  c.val = 0xA ∨ c.val = 0xD ∨ c.val = 0x2028 ∨ c.val = 0x2029

/-- JavaScript `s.startsWith(pre)`, modelled at the character level. -/
def jsStartsWith (s pre : String) : Bool := s.data.take pre.data.length = pre.data

/-! ## Base64 (reference model)

The repository converts the uploaded buffer with `buffer.toString('base64')`
and repairs browser-supplied base64 with `padBase64`.  To state round-trip
properties we model standard base64 itself: `toSextets`/`fromSextets` are
the bit regrouping between bytes and 6-bit values, and
`encodeBase64`/`decodeBase64` translate through the standard alphabet.
Bytes are natural numbers below 256. -/

/-- The standard base64 alphabet. -/
def B64_CHARS : List Char :=
  "ABCDEFGHIJKLMNOPQRSTUVWXYZabcdefghijklmnopqrstuvwxyz0123456789+/".data

/-- Character of a 6-bit value. -/
def b64Char (n : Nat) : Char := B64_CHARS.getD n 'A'

/-- 6-bit value of a character, `none` for characters outside the
alphabet. -/
def b64Val (c : Char) : Option Nat := B64_CHARS.findIdx? (· = c)

/-- Regroup 8-bit bytes into 6-bit values, the final group encoding a
leftover of one byte into two values and of two bytes into three. -/
def toSextets : List Nat → List Nat
  | b0 :: b1 :: b2 :: rest =>
      (b0 / 4) :: ((b0 % 4) * 16 + b1 / 16) :: ((b1 % 16) * 4 + b2 / 64) ::
        (b2 % 64) :: toSextets rest
  | [b0, b1] => [b0 / 4, (b0 % 4) * 16 + b1 / 16, (b1 % 16) * 4]
  | [b0] => [b0 / 4, (b0 % 4) * 16]
  | [] => []

/-- Regroup 6-bit values back into bytes; a leftover of a single value is
not a valid base64 tail. -/
def fromSextets : List Nat → Option (List Nat)
  | s0 :: s1 :: s2 :: s3 :: rest =>
      (fromSextets rest).map fun bs =>
        (s0 * 4 + s1 / 16) :: ((s1 % 16) * 16 + s2 / 4) :: ((s2 % 4) * 64 + s3) :: bs
  | [s0, s1, s2] => some [s0 * 4 + s1 / 16, (s1 % 16) * 16 + s2 / 4]
  | [s0, s1] => some [s0 * 4 + s1 / 16]
  | [_] => none
  | [] => some []

/-- Unpadded base64 encoding of a byte sequence. -/
def encodeBase64 (bs : List Nat) : String := String.mk ((toSextets bs).map b64Char)

/-- Translate characters back to 6-bit values, failing on any character
outside the alphabet. -/
def decodeVals : List Char → Option (List Nat)
  | [] => some []
  | c :: cs =>
      match b64Val c, decodeVals cs with
      | some v, some vs => some (v :: vs)
      | _, _ => none

/-- Base64 decoding of an unpadded string. -/
def decodeBase64 (s : String) : Option (List Nat) :=
  (decodeVals s.data).bind fromSextets

/-- Remove the trailing `=` padding characters of a base64 string. -/
def stripPadding (s : String) : String :=
  String.mk ((s.data.reverse.dropWhile (· = '=')).reverse)

/-- Node's `buffer.toString('base64')`: standard padded base64. -/
def bufferToBase64 (bs : List Nat) : String :=
  let u := encodeBase64 bs
  if u.length % 4 = 0 then u
  else u ++ String.mk (List.replicate (4 - u.length % 4) '=')

/-! ## The normalizer helpers (source: gemini module, latest rewrite) -/

/-- Source `padBase64`: base64 from a browser may lack its trailing `=`;
append enough to make the length a multiple of four. -/
def padBase64 (b64 : String) : String :=
  let rem := b64.length % 4
  if rem = 0 then b64 else b64 ++ String.mk (List.replicate (4 - rem) '=')

/-- Character-level matcher of the source regular expression
`^data:[^;]+;base64,(.+)$`, returning the capture group when the input
matches.  JavaScript semantics: `[^;]` matches any character other than
`;` (line terminators included), `.` matches any character except a line
terminator, and without the `m` flag `$` only accepts the end of the
input. -/
def stripDataUrlChars (input : List Char) : Option (List Char) :=
  if input.take 5 = "data:".data then
    let rest := input.drop 5
    let t := rest.takeWhile (fun c => c ≠ ';')
    let after := rest.dropWhile (fun c => c ≠ ';')
    if t.length > 0 ∧ after.take 8 = ";base64,".data then
      let payload := after.drop 8
      if payload.length > 0 ∧ payload.all (fun c => ¬ isLineTerm c) then some payload
      else none
    else none
  else none

/-- Source `stripDataUrl`: peel a `data:<type>;base64,` wrapper when the
regular expression matches, otherwise return the input unchanged. -/
def stripDataUrl (input : String) : String :=
  match stripDataUrlChars input.data with
  | some payload => String.mk payload
  | none => input

/-! ## External service response model (source: gemini module)

The external service's response shape is not fixed; the probing helpers
below mirror the source exactly.  A field that JavaScript may leave
`undefined` is an `Option`. -/

/-- An inline payload `{ mimeType, data }` as it appears in a response. -/
structure InlineData where
  mimeType : Option String := none
  data : Option String := none
deriving DecidableEq, Repr

/-- The snake_case inline payload `{ mime_type, data }` probed as a last
resort. -/
structure InlineDataSnake where
  mime_type : Option String := none
  data : Option String := none
deriving DecidableEq, Repr

/-- One part of a response candidate's content. -/
structure RespPart where
  text : Option String := none
  inlineData : Option InlineData := none
  media : Option (List InlineData) := none
  inline_data : Option InlineDataSnake := none
deriving DecidableEq, Repr

/-- A candidate's content. -/
structure RespContent where
  parts : Option (List RespPart) := none
deriving DecidableEq, Repr

/-- One response candidate. -/
structure RespCandidate where
  content : Option RespContent := none
deriving DecidableEq, Repr

/-- The optional `response` wrapper some SDK versions add. -/
structure RespWrapper where
  candidates : Option (List RespCandidate) := none
deriving DecidableEq, Repr

/-- A service response: possibly wrapped candidates and a possible
shortcut `text` field. -/
structure ApiResponse where
  response : Option RespWrapper := none
  candidates : Option (List RespCandidate) := none
  text : Option String := none
deriving DecidableEq, Repr

/-- Source `extractCandidates`:
`res?.response?.candidates ?? res?.candidates ?? []`. -/
def extractCandidates (res : ApiResponse) : List RespCandidate :=
  match res.response with
  | some w =>
      match w.candidates with
      | some cs => cs
      | none => res.candidates.getD []
  | none => res.candidates.getD []

/-- Source `firstPartsArray`: the parts of the first candidate, or `[]`. -/
def firstPartsArray (res : ApiResponse) : List RespPart :=
  match extractCandidates res with
  | [] => []
  | c :: _ =>
      match c.content with
      | some ct => ct.parts.getD []
      | none => []

/-- First probe of `extractImageBase64`: `part.inlineData.data` truthy and
`part.inlineData.mimeType` starting with `image/`. -/
def probeInline (p : RespPart) : Bool :=
  match p.inlineData with
  | some d => strTruthy d.data && (jsStartsWith (d.mimeType.getD "") "image/")
  | none => false

/-- Second probe: `part.media[0].data` with an `image/` mime type. -/
def probeMedia (p : RespPart) : Bool :=
  match p.media with
  | some (d :: _) => strTruthy d.data && (jsStartsWith (d.mimeType.getD "") "image/")
  | _ => false

/-- Third probe: the snake_case `part.inline_data`. -/
def probeSnake (p : RespPart) : Bool :=
  match p.inline_data with
  | some d => strTruthy d.data && (jsStartsWith (d.mime_type.getD "") "image/")
  | none => false

/-- Source `extractImageBase64`: probe the three known nested layouts in a
fixed priority order and return the first image payload found. -/
def extractImageBase64 (res : ApiResponse) : Option String :=
  let parts := firstPartsArray res
  if parts.length = 0 then none
  else
    match parts.find? probeInline with
    | some p => p.inlineData.bind InlineData.data
    | none =>
        match parts.find? probeMedia with
        | some p =>
            match p.media with
            | some (d :: _) => d.data
            | _ => none
        | none =>
            match parts.find? probeSnake with
            | some p => p.inline_data.bind InlineDataSnake.data
            | none => none

/-- Truthiness of `s.trim()` for a possibly-missing string. -/
def strTrimTruthy : Option String → Bool
  | none => false
  | some s => jsTrim s ≠ ""

/-- Source `extractText`: the shortcut `res.text` when it has a non-blank
value, otherwise the first part whose `text` is non-blank. -/
def extractText (res : ApiResponse) : Option String :=
  if strTrimTruthy res.text then res.text
  else
    match (firstPartsArray res).find? (fun p => strTrimTruthy p.text) with
    | some p => p.text
    | none => none

/-! ## The generation dispatcher (source: gemini module, latest rewrite) -/

/-- Source `IMAGE_MODELS`: the listed image model identifiers. -/
def IMAGE_MODELS : List String :=
  ["gemini-2.5-flash-image-preview", "gemini-2.5-flash-image"]

/-- Source `DEFAULT_IMAGE_MODEL`: the environment override when it is a
truthy member of `IMAGE_MODELS`, else the first listed model.  The
argument is the `GEMINI_IMAGE_MODEL` environment variable. -/
def DEFAULT_IMAGE_MODEL (env : Option String) : String :=
  match env with
  | some e => if e ≠ "" ∧ IMAGE_MODELS.contains e then e else "gemini-2.5-flash-image-preview"
  | none => "gemini-2.5-flash-image-preview"

/-- Source `ALLOWED_MIME` (a `Set` in the source; membership is all that
is used). -/
def ALLOWED_MIME : List String := ["image/png", "image/jpeg", "image/webp"]

/-- Source `EDIT_PREFIX` (renamed here): the fixed guard clause prepended
to every user prompt to force edit behaviour. -/
def EDIT_GUARD : String :=
  "EDIT THE PROVIDED IMAGE ONLY. " ++
  "Use the uploaded image as the base. " ++
  "Do NOT generate a new scene from scratch. " ++
  "Preserve subject identity, pose and composition unless changes are explicitly requested. " ++
  "Apply only these changes:"

/-- Source `ImageGenerationRequest`. -/
structure ImageGenerationRequest where
  imageData : String
  mimeType : String
  prompt : String
  outputMimeType : Option String := none
deriving DecidableEq, Repr

/-- Source `ImageGenerationResponse`. -/
structure ImageGenerationResponse where
  success : Bool
  imageData : Option String := none
  error : Option String := none
deriving DecidableEq, Repr

/-- The fixed sampling configuration of the dispatch call. -/
structure GenConfig where
  temperature : ℚ
  topP : ℚ
  topK : Nat
deriving DecidableEq, Repr

/-- An inline payload sent to the service. -/
structure SentInline where
  mimeType : String
  data : String
deriving DecidableEq, Repr

/-- One part of the request sent to the service. -/
structure SentPart where
  text : Option String := none
  inlineData : Option SentInline := none
deriving DecidableEq, Repr

/-- One `ai.models.generateContent` call: the model identifier, the single
user turn's parts and the sampling configuration. -/
structure GenCall where
  model : String
  parts : List SentPart
  config : GenConfig
deriving DecidableEq, Repr

/-- The external service: a call either throws (a transport/service error
with a message) or returns a response. -/
abbrev Svc : Type := GenCall → Except String ApiResponse

/-- The one service call `generateImageWithPrompt` issues: the selected
default model, a text part carrying the guarded trimmed prompt, an inline
part carrying the normalized base64 image, and the fixed low-randomness
sampling configuration. -/
def dispatchCall (request : ImageGenerationRequest) (env : Option String) : GenCall :=
  { model := DEFAULT_IMAGE_MODEL env
    parts :=
      [ { text := some (EDIT_GUARD ++ "\n" ++ jsTrim request.prompt ++ "\nReturn an image, not text.") }
      , { inlineData := some { mimeType := request.mimeType
                               data := padBase64 (stripDataUrl request.imageData) } } ]
    config := { temperature := 2/10, topP := 9/10, topK := 32 } }

/-- The unsupported-mime error message of the dispatcher. -/
def unsupportedMimeMsg (mimeType : String) : String :=
  "Unsupported mimeType \"" ++ mimeType ++ "\". Use image/png, image/jpeg or image/webp."

/-- Source `generateImageWithPrompt` (latest rewrite): validate the
request, normalize the image payload, issue one call to the selected
model, and extract the image from the response; a thrown service error or
a response without an image payload yields a failure result. -/
def generateImageWithPrompt (request : ImageGenerationRequest) (env : Option String)
    (svc : Svc) : ImageGenerationResponse :=
  if request.imageData = "" ∨ request.mimeType = "" then
    { success := false, error := some "Image data and mimeType are required" }
  else if jsTrim request.prompt = "" then
    { success := false, error := some "Prompt is required" }
  else if ¬ ALLOWED_MIME.contains request.mimeType then
    { success := false, error := some (unsupportedMimeMsg request.mimeType) }
  else
    match svc (dispatchCall request env) with
    | .error msg => { success := false, error := some msg }
    | .ok response =>
        match extractImageBase64 response with
        | some out => { success := true, imageData := some out }
        | none =>
            match extractText response with
            | some t => { success := false, error := some ("Model returned no image" ++ " (" ++ t ++ ")") }
            | none => { success := false, error := some "Model returned no image" }

/-! ## The generation record store

`server/storage.ts` is not part of the available source tree; the store is
modelled from the specification's store contract (create with fresh id and
`createdAt = now`, partial-patch update, recency-ordered retrieval). -/

/-- The status enumeration of a generation record. -/
inductive Status where
  | pending
  | completed
  | failed
deriving DecidableEq, Repr

/-- The persisted generation record. -/
structure GenerationRecord where
  id : Nat
  prompt : String
  originalImageUrl : Option String
  generatedImageUrl : Option String
  status : Status
  errorMessage : Option String
  createdAt : Nat
deriving DecidableEq, Repr

/-- The insert shape of the schema: every record field except the
store-allocated `id` and `createdAt`. -/
structure InsertGeneration where
  prompt : String
  originalImageUrl : Option String
  generatedImageUrl : Option String
  status : Status
  errorMessage : Option String
deriving DecidableEq, Repr

/-- A partial field patch for `updateGeneration`. -/
structure GenerationPatch where
  status : Option Status := none
  generatedImageUrl : Option String := none
  errorMessage : Option String := none
deriving DecidableEq, Repr

/-- Modelled from the spec: the record store state.  `server/storage.ts`
is not under the available sources; ids and creation instants are modelled
as monotone counters, which gives the collision-free unique-id allocation
the store contract demands. -/
structure Storage where
  records : List GenerationRecord
  nextId : Nat
  nextTime : Nat
deriving DecidableEq, Repr

/-- A store is well formed when every stored id is below the allocation
counter, so freshly allocated ids never collide. -/
def Storage.WF (s : Storage) : Prop := ∀ r ∈ s.records, r.id < s.nextId

/-- Modelled from the spec: `create(fields) → record` allocates a fresh
id, stamps `createdAt = now` and persists the given fields. -/
def createGeneration (s : Storage) (ins : InsertGeneration) :
    GenerationRecord × Storage :=
  let r : GenerationRecord :=
    { id := s.nextId, prompt := ins.prompt
      originalImageUrl := ins.originalImageUrl
      generatedImageUrl := ins.generatedImageUrl
      status := ins.status, errorMessage := ins.errorMessage
      createdAt := s.nextTime }
  (r, { records := s.records ++ [r], nextId := s.nextId + 1, nextTime := s.nextTime + 1 })

/-- Apply a partial field patch to a record. -/
def applyPatch (r : GenerationRecord) (p : GenerationPatch) : GenerationRecord :=
  { r with
    status := p.status.getD r.status
    generatedImageUrl :=
      match p.generatedImageUrl with
      | some u => some u
      | none => r.generatedImageUrl
    errorMessage :=
      match p.errorMessage with
      | some m => some m
      | none => r.errorMessage }

/-- Modelled from the spec: `update(id, patch) → record` applies a partial
field patch to the record with the given id. -/
def updateGeneration (s : Storage) (id : Nat) (p : GenerationPatch) :
    Option GenerationRecord × Storage :=
  match s.records.find? (fun x => x.id == id) with
  | none => (none, s)
  | some r =>
      (some (applyPatch r p),
       { s with records := s.records.map (fun x => if x.id == id then applyPatch x p else x) })

/-- Newest-first comparison on records. -/
def newerEq (a b : GenerationRecord) : Prop := b.createdAt ≤ a.createdAt

instance : DecidableRel newerEq := fun a b => Nat.decLe b.createdAt a.createdAt

instance : IsTotal GenerationRecord newerEq :=
  ⟨fun a b => (Nat.le_total a.createdAt b.createdAt).symm⟩

instance : IsTrans GenerationRecord newerEq :=
  ⟨fun _ _ _ hab hbc => Nat.le_trans hbc hab⟩

/-- Modelled from the spec: `listRecent(limit)` returns the records newest
first, at most `limit` of them. -/
def getRecentGenerations (s : Storage) (limit : Int) : List GenerationRecord :=
  (s.records.insertionSort newerEq).take limit.toNat

/-! ## The HTTP route handlers (source: routes module) -/

/-- Outcome of a request, as far as the claims are concerned: the HTTP
status class and the payload sent with it. -/
inductive HttpResult where
  | ok (generation : Option GenerationRecord) (imageUrl : String)
  | badRequest (error : String)
  | serverError (error : String)
deriving DecidableEq, Repr

/-- Is the result the 400 response of an intake validation failure? -/
def HttpResult.isBadRequest : HttpResult → Bool
  | .badRequest _ => true
  | _ => false

/-- Source multer configuration: the 10 MB `fileSize` limit. -/
def MAX_FILE_SIZE : Nat := 10 * 1024 * 1024

/-- An uploaded file as multer hands it to the route: a declared mimetype
and the buffered bytes. -/
structure UploadedFile where
  mimetype : String
  bytes : List Nat
deriving DecidableEq, Repr

/-- Source multer `fileFilter`: accept exactly the files whose declared
mimetype starts with `image/`. -/
def fileFilterAccepts (f : UploadedFile) : Bool := jsStartsWith f.mimetype "image/"

/-- Source `POST /api/generate` handler body (after multer): validate the
prompt, create a pending record, dispatch, and move the record to a
terminal state.  `prompt` is the raw form field, which JavaScript may
leave `undefined`. -/
def generateHandler (s : Storage) (file : Option UploadedFile) (prompt : Option String)
    (env : Option String) (svc : Svc) : Storage × HttpResult :=
  match file with
  | none => (s, .badRequest "No image file provided")
  | some f =>
      match prompt with
      | none => (s, .badRequest "Prompt is required")
      | some p =>
          if p = "" ∨ (jsTrim p).length = 0 then (s, .badRequest "Prompt is required")
          else if p.length > 500 then (s, .badRequest "Prompt must be 500 characters or less")
          else
            let cr := createGeneration s
              { prompt := jsTrim p, originalImageUrl := none, generatedImageUrl := none
                status := Status.pending, errorMessage := none }
            let generation := cr.1
            let s1 := cr.2
            let imageData := bufferToBase64 f.bytes
            let result := generateImageWithPrompt
              { imageData := imageData, mimeType := f.mimetype, prompt := jsTrim p } env svc
            if result.success && strTruthy result.imageData then
              let url := "data:image/png;base64," ++ result.imageData.getD ""
              let upd := updateGeneration s1 generation.id
                { status := some Status.completed, generatedImageUrl := some url }
              (upd.2, .ok upd.1 url)
            else
              let upd := updateGeneration s1 generation.id
                { status := some Status.failed
                  errorMessage := some (jsOrStr result.error "Unknown error") }
              (upd.2, .serverError (jsOrStr result.error "Failed to generate image"))

/-- The generate endpoint as a whole: the multer stage (source: the
`upload` configuration) followed by the handler.  Modelled from the spec:
the express error middleware that turns a multer rejection (bad mimetype
or an oversized file) into a 4xx response is not under the available
sources; the spec's error taxonomy sends validation errors to the caller
as 400 without touching the record store. -/
def processGenerate (s : Storage) (file : Option UploadedFile) (prompt : Option String)
    (env : Option String) (svc : Svc) : Storage × HttpResult :=
  match file with
  | some f =>
      if fileFilterAccepts f then
        if f.bytes.length > MAX_FILE_SIZE then (s, .badRequest "File too large")
        else generateHandler s (some f) prompt env svc
      else (s, .badRequest "Only image files are allowed")
  | none => generateHandler s none prompt env svc

/-- JavaScript `parseInt` on a possibly-missing query value (an absent
value stringifies to `"undefined"`, which parses to `NaN`, here `none`):
skip leading whitespace, an optional sign, an optional `0x`/`0X` hex
prefix, then the longest run of digits of the radix; no digits is `NaN`. -/
def parseIntJS (q : Option String) : Option Int :=
  match q with
  | none => none
  | some str =>
      let cs0 := str.data.dropWhile jsSpace
      let sgn : Bool × List Char :=
        match cs0 with
        | '-' :: rest => (true, rest)
        | '+' :: rest => (false, rest)
        | _ => (false, cs0)
      let rad : Nat × List Char :=
        match sgn.2 with
        | '0' :: 'x' :: rest => (16, rest)
        | '0' :: 'X' :: rest => (16, rest)
        | _ => (10, sgn.2)
      let digits := rad.2.takeWhile (fun c => decide (c.isDigit ∧ rad.1 = 10) ||
        decide (("0123456789abcdefABCDEF".data.contains c) ∧ rad.1 = 16))
      if digits.length = 0 then none
      else
        let n := digits.foldl (fun acc c =>
          acc * rad.1 + (if c.isDigit then c.toNat - 48
                         else if c.val ≥ 97 then c.toNat - 87 else c.toNat - 55)) 0
        some (if sgn.1 then -(n : Int) else (n : Int))

/-- JavaScript `parseInt(...) || 10`: `NaN` and `0` both fall back to the
default. -/
def jsOrLimit (o : Option Int) : Int :=
  match o with
  | none => 10
  | some n => if n = 0 then 10 else n

/-- The limit the `GET /api/generations` handler passes to the store. -/
def appliedLimit (q : Option String) : Int := jsOrLimit (parseIntJS q)

/-- Source `GET /api/generations` handler: parse the limit with a default
of 10 and return the recent records. -/
def handleListGenerations (s : Storage) (q : Option String) : List GenerationRecord :=
  getRecentGenerations s (appliedLimit q)

/-! ## Base64 lemmas -/

theorem toSextets_lt : ∀ bs : List Nat, (∀ b ∈ bs, b < 256) →
    ∀ x ∈ toSextets bs, x < 64
  | [], _ => by simp [toSextets]
  | [b0], h => by
      have h0 := h b0 (by simp)
      simp only [toSextets, List.mem_cons, List.not_mem_nil, or_false]
      rintro x (rfl | rfl) <;> omega
  | [b0, b1], h => by
      have h0 := h b0 (by simp)
      have h1 := h b1 (by simp)
      simp only [toSextets, List.mem_cons, List.not_mem_nil, or_false]
      rintro x (rfl | rfl | rfl) <;> omega
  | b0 :: b1 :: b2 :: rest, h => by
      have h0 := h b0 (by simp)
      have h1 := h b1 (by simp)
      have h2 := h b2 (by simp)
      have ih := toSextets_lt rest (fun b hb => h b (by simp [hb]))
      simp only [toSextets, List.mem_cons]
      rintro x (rfl | rfl | rfl | rfl | hx)
      · omega
      · omega
      · omega
      · omega
      · exact ih x hx

theorem fromSextets_toSextets : ∀ bs : List Nat, (∀ b ∈ bs, b < 256) →
    fromSextets (toSextets bs) = some bs
  | [], _ => rfl
  | [b0], h => by
      have h0 := h b0 (by simp)
      simp only [toSextets, fromSextets, Option.some.injEq, List.cons.injEq, and_true]
      omega
  | [b0, b1], h => by
      have h0 := h b0 (by simp)
      have h1 := h b1 (by simp)
      simp only [toSextets, fromSextets, Option.some.injEq, List.cons.injEq, and_true]
      constructor <;> omega
  | b0 :: b1 :: b2 :: rest, h => by
      have h0 := h b0 (by simp)
      have h1 := h b1 (by simp)
      have h2 := h b2 (by simp)
      have ih := fromSextets_toSextets rest (fun b hb => h b (by simp [hb]))
      simp only [toSextets, fromSextets, ih, Option.map_some', Option.some.injEq,
        List.cons.injEq, and_true, true_and]
      omega

theorem b64Val_b64Char : ∀ n < 64, b64Val (b64Char n) = some n := by decide

theorem b64Char_ne_pad (n : Nat) : b64Char n ≠ '=' := by
  rcases Nat.lt_or_ge n 64 with h | h
  · revert h; revert n; decide
  · have hlen : B64_CHARS.length ≤ n := by
      have : B64_CHARS.length = 64 := by decide
      omega
    have hnone : B64_CHARS[n]? = none := List.getElem?_eq_none hlen
    simp [b64Char, List.getD, hnone]

theorem decodeVals_map_b64Char : ∀ sx : List Nat, (∀ x ∈ sx, x < 64) →
    decodeVals (sx.map b64Char) = some sx
  | [], _ => rfl
  | x :: xs, h => by
      have hx := h x (by simp)
      have ih := decodeVals_map_b64Char xs (fun y hy => h y (by simp [hy]))
      simp only [List.map_cons, decodeVals, b64Val_b64Char x hx, ih]

theorem decodeBase64_encodeBase64 (bs : List Nat) (h : ∀ b ∈ bs, b < 256) :
    decodeBase64 (encodeBase64 bs) = some bs := by
  have hsx : ∀ x ∈ toSextets bs, x < 64 := toSextets_lt bs h
  simp only [decodeBase64, encodeBase64]
  rw [decodeVals_map_b64Char _ hsx]
  simpa using fromSextets_toSextets bs h

theorem dropWhile_replicate_pad : ∀ (k : Nat) (l : List Char),
    ((List.replicate k '=') ++ l).dropWhile (· = '=') = l.dropWhile (· = '=')
  | 0, l => by simp
  | m + 1, l => by
      simp only [List.replicate_succ, List.cons_append, List.dropWhile_cons]
      simp only [decide_eq_true_eq, if_true, if_pos]
      exact dropWhile_replicate_pad m l

theorem stripPadding_append_pads (s : String) (k : Nat)
    (h : ∀ c ∈ s.data, c ≠ '=') :
    stripPadding (s ++ String.mk (List.replicate k '=')) = s := by
  have hdata : (s ++ String.mk (List.replicate k '=')).data
      = s.data ++ List.replicate k '=' := String.data_append ..
  have hself : s.data.reverse.dropWhile (· = '=') = s.data.reverse := by
    cases hrev : s.data.reverse with
    | nil => simp
    | cons c t =>
        have hc : c ∈ s.data := by
          have : c ∈ s.data.reverse := by simp [hrev]
          simpa using this
        have := h c hc
        simp [List.dropWhile_cons, this]
  apply String.ext
  simp only [stripPadding, hdata, List.reverse_append, List.reverse_replicate,
    dropWhile_replicate_pad, hself, List.reverse_reverse]

theorem stripPadding_padBase64 (s : String) (h : ∀ c ∈ s.data, c ≠ '=') :
    stripPadding (padBase64 s) = s := by
  unfold padBase64
  by_cases h4 : s.length % 4 = 0
  · simpa [h4] using stripPadding_append_pads s 0 h
  · simpa [h4] using stripPadding_append_pads s (4 - s.length % 4) h

theorem encodeBase64_ne_pad (bs : List Nat) : ∀ c ∈ (encodeBase64 bs).data, c ≠ '=' := by
  intro c hc
  have : c ∈ (toSextets bs).map b64Char := hc
  obtain ⟨n, _, rfl⟩ := List.mem_map.mp this
  exact b64Char_ne_pad n

/-- C5: padding a base64 string whose length is not a multiple of four
appends between one and three `=` so the length becomes a multiple of
four, and a padded encoding decodes back to the original bytes once the
padding is stripped. -/
theorem padBase64_spec :
    (∀ s : String, s.length % 4 = 1 ∨ s.length % 4 = 2 ∨ s.length % 4 = 3 →
      (padBase64 s).length % 4 = 0 ∧
      ∃ k ≤ 3, padBase64 s = s ++ String.mk (List.replicate k '=')) ∧
    (∀ bs : List Nat, (∀ b ∈ bs, b < 256) →
      decodeBase64 (stripPadding (padBase64 (encodeBase64 bs))) = some bs) := by
  constructor
  · intro s hs
    have hrem : s.length % 4 ≠ 0 := by omega
    have hlenmk : (String.mk (List.replicate (4 - s.length % 4) '=')).length
        = 4 - s.length % 4 := by
      show (List.replicate (4 - s.length % 4) '=').length = _
      simp
    constructor
    · simp only [padBase64, hrem, if_false, String.length_append, hlenmk]
      omega
    · refine ⟨4 - s.length % 4, by omega, ?_⟩
      simp [padBase64, hrem]
  · intro bs h
    rw [stripPadding_padBase64 _ (encodeBase64_ne_pad bs)]
    exact decodeBase64_encodeBase64 bs h

/-- Witness for C5 at the concrete string `"QUJ"` (length 3) and the
concrete bytes `[65, 66, 67]`. -/
theorem padBase64_spec_witness :
    ((padBase64 "QUJ").length % 4 = 0 ∧
      ∃ k ≤ 3, padBase64 "QUJ" = "QUJ" ++ String.mk (List.replicate k '=')) ∧
    decodeBase64 (stripPadding (padBase64 (encodeBase64 [65, 66, 67]))) = some [65, 66, 67] :=
  ⟨padBase64_spec.1 "QUJ" (by decide), padBase64_spec.2 [65, 66, 67] (by decide)⟩

/-! ## Data-URL stripping lemmas -/

theorem data_ne_nil_of_ne_empty {s : String} (h : s ≠ "") : s.data ≠ [] := by
  intro hd
  exact h (String.ext hd)

theorem ne_empty_of_data_ne_nil {s : String} (h : s.data ≠ []) : s ≠ "" := by
  intro he
  exact h (by simp [he])

theorem stripDataUrlChars_wrap (mime payload : String)
    (hm1 : mime ≠ "") (hm2 : ∀ c ∈ mime.data, c ≠ ';')
    (hp1 : payload ≠ "") (hp2 : ∀ c ∈ payload.data, ¬ isLineTerm c) :
    stripDataUrlChars ("data:".data ++ mime.data ++ ";base64,".data ++ payload.data)
      = some payload.data := by
  have hm2' : ∀ c ∈ mime.data, (fun c => decide (c ≠ ';')) c = true := by
    intro c hc; simpa using hm2 c hc
  have hsemi : ";base64,".data = ';' :: "base64,".data := rfl
  have htake5 : ("data:".data ++ mime.data ++ ";base64,".data ++ payload.data).take 5
      = "data:".data := by
    rw [List.append_assoc, List.append_assoc]
    exact List.take_left' rfl
  have hdrop5 : ("data:".data ++ mime.data ++ ";base64,".data ++ payload.data).drop 5
      = mime.data ++ (";base64,".data ++ payload.data) := by
    rw [List.append_assoc, List.append_assoc]
    exact List.drop_left' rfl
  have htw : (mime.data ++ (";base64,".data ++ payload.data)).takeWhile
      (fun c => decide (c ≠ ';')) = mime.data := by
    rw [List.takeWhile_append_of_pos hm2']
    simp [hsemi, List.takeWhile_cons]
  have hdw : (mime.data ++ (";base64,".data ++ payload.data)).dropWhile
      (fun c => decide (c ≠ ';')) = ";base64,".data ++ payload.data := by
    rw [List.dropWhile_append_of_pos hm2']
    simp [hsemi, List.dropWhile_cons]
  have htake8 : (";base64,".data ++ payload.data).take 8 = ";base64,".data :=
    List.take_left' rfl
  have hdrop8 : (";base64,".data ++ payload.data).drop 8 = payload.data :=
    List.drop_left' rfl
  have hmlen : mime.data.length > 0 :=
    List.length_pos.mpr (data_ne_nil_of_ne_empty hm1)
  have hplen : payload.data.length > 0 :=
    List.length_pos.mpr (data_ne_nil_of_ne_empty hp1)
  have hpall : payload.data.all (fun c => ¬ isLineTerm c) = true := by
    rw [List.all_eq_true]
    intro c hc
    simpa using hp2 c hc
  simp only [stripDataUrlChars]
  rw [htake5, if_pos rfl, hdrop5, htw, hdw, htake8, hdrop8]
  rw [if_pos ⟨hmlen, rfl⟩, if_pos ⟨hplen, hpall⟩]

/-- C6: the data-URL stripper.  First conjunct: wrapping a bare payload
into a data URL and stripping it reconstructs the payload (the wrapper is
removed exactly when present); second conjunct: every string is either
returned unchanged or is itself a well-formed data URL whose bare payload
is returned. -/
theorem stripDataUrl_spec :
    (∀ mime payload : String,
        mime ≠ "" → (∀ c ∈ mime.data, c ≠ ';') →
        payload ≠ "" → (∀ c ∈ payload.data, ¬ isLineTerm c) →
        stripDataUrl ("data:" ++ mime ++ ";base64," ++ payload) = payload) ∧
    (∀ s : String, stripDataUrl s = s ∨
      ∃ mime payload : String,
        mime ≠ "" ∧ (∀ c ∈ mime.data, c ≠ ';') ∧
        payload ≠ "" ∧ (∀ c ∈ payload.data, ¬ isLineTerm c) ∧
        s = "data:" ++ mime ++ ";base64," ++ payload ∧
        stripDataUrl s = payload) := by
  constructor
  · intro mime payload hm1 hm2 hp1 hp2
    have hdata : ("data:" ++ mime ++ ";base64," ++ payload).data
        = "data:".data ++ mime.data ++ ";base64,".data ++ payload.data := by
      simp [String.data_append]
    rw [stripDataUrl, hdata, stripDataUrlChars_wrap mime payload hm1 hm2 hp1 hp2]
  · intro s
    cases h : stripDataUrlChars s.data with
    | none => left; rw [stripDataUrl, h]
    | some p =>
        right
        have h0 : stripDataUrl s = String.mk p := by rw [stripDataUrl, h]
        simp only [stripDataUrlChars] at h
        split at h
        case isFalse => exact absurd h (by simp)
        case isTrue h5 =>
          split at h
          case isFalse => exact absurd h (by simp)
          case isTrue h8 =>
            split at h
            case isFalse => exact absurd h (by simp)
            case isTrue hp =>
              have hpeq : ((s.data.drop 5).dropWhile (fun c => decide (c ≠ ';'))).drop 8 = p :=
                Option.some.inj h
              refine ⟨String.mk ((s.data.drop 5).takeWhile (fun c => decide (c ≠ ';'))),
                String.mk p, ?_, ?_, ?_, ?_, ?_, ?_⟩
              · apply ne_empty_of_data_ne_nil
                intro hnil
                rw [show (String.mk ((s.data.drop 5).takeWhile (fun c => decide (c ≠ ';')))).data
                  = (s.data.drop 5).takeWhile (fun c => decide (c ≠ ';')) from rfl] at hnil
                rw [hnil] at h8
                simp at h8
              · intro c hc
                have hc' : c ∈ (s.data.drop 5).takeWhile (fun c => decide (c ≠ ';')) := hc
                have hall := List.all_takeWhile (p := fun c => decide (c ≠ ';')) (l := s.data.drop 5)
                rw [List.all_eq_true] at hall
                simpa using hall c hc'
              · apply ne_empty_of_data_ne_nil
                intro hnil
                rw [show (String.mk p).data = p from rfl] at hnil
                rw [← hpeq] at hnil
                rw [hnil] at hp
                simp at hp
              · intro c hc
                have hc' : c ∈ p := hc
                have := hp.2
                rw [List.all_eq_true] at this
                simpa using this c (hpeq ▸ hc')
              · apply String.ext
                have hparts : s.data = s.data.take 5 ++
                    ((s.data.drop 5).takeWhile (fun c => decide (c ≠ ';')) ++
                      (((s.data.drop 5).dropWhile (fun c => decide (c ≠ ';'))).take 8 ++
                        ((s.data.drop 5).dropWhile (fun c => decide (c ≠ ';'))).drop 8)) := by
                  rw [List.take_append_drop, List.takeWhile_append_dropWhile, List.take_append_drop]
                rw [String.data_append, String.data_append, String.data_append]
                rw [show (String.mk ((s.data.drop 5).takeWhile (fun c => decide (c ≠ ';')))).data
                  = (s.data.drop 5).takeWhile (fun c => decide (c ≠ ';')) from rfl]
                rw [show (String.mk p).data = p from rfl]
                conv_lhs => rw [hparts]
                rw [h5, h8.2, hpeq]
                simp only [List.append_assoc]
              · exact h0

/-- Witness for C6: stripping the concrete data URL built from the mime
type `image/png` and the payload `QUJD` returns the payload. -/
theorem stripDataUrl_spec_witness :
    stripDataUrl ("data:" ++ "image/png" ++ ";base64," ++ "QUJD") = "QUJD" :=
  stripDataUrl_spec.1 "image/png" "QUJD" (by decide) (by decide) (by decide) (by decide)

/-! ## Dispatcher theorems -/

/-- C1 (amended): the dispatcher issues exactly one service call, to the
selected default model; its result depends only on that one call's
outcome, and it succeeds exactly when the request passes validation and
that single call returns a response containing an image payload — no
other candidate model is ever attempted. -/
theorem generateImageWithPrompt_single_call
    (request : ImageGenerationRequest) (env : Option String) (svc svc2 : Svc)
    (h : svc (dispatchCall request env) = svc2 (dispatchCall request env)) :
    (dispatchCall request env).model = DEFAULT_IMAGE_MODEL env ∧
    generateImageWithPrompt request env svc = generateImageWithPrompt request env svc2 ∧
    ((generateImageWithPrompt request env svc).success = true ↔
      ¬ (request.imageData = "" ∨ request.mimeType = "") ∧
      jsTrim request.prompt ≠ "" ∧
      ALLOWED_MIME.contains request.mimeType = true ∧
      ∃ r, svc (dispatchCall request env) = Except.ok r ∧ (extractImageBase64 r).isSome) := by
  refine ⟨rfl, ?_, ?_⟩
  · simp only [generateImageWithPrompt, h]
  · by_cases h1 : request.imageData = "" ∨ request.mimeType = ""
    · simp [generateImageWithPrompt, h1]
    · by_cases h2 : jsTrim request.prompt = ""
      · simp [generateImageWithPrompt, h1, h2]
      · by_cases h3 : ALLOWED_MIME.contains request.mimeType = true
        · have h3' : request.mimeType ∈ ALLOWED_MIME := by simpa using h3
          cases hsvc : svc (dispatchCall request env) with
          | error msg => simp [generateImageWithPrompt, h1, h2, h3, h3', hsvc]
          | ok r =>
              cases hext : extractImageBase64 r with
              | some out =>
                  simp [generateImageWithPrompt, h1, h2, h3, h3', hsvc, hext]
              | none =>
                  cases htxt : extractText r with
                  | some t => simp [generateImageWithPrompt, h1, h2, h3, h3', hsvc, hext, htxt]
                  | none => simp [generateImageWithPrompt, h1, h2, h3, h3', hsvc, hext, htxt]
        · have h3' : ¬ request.mimeType ∈ ALLOWED_MIME := by simpa using h3
          simp [generateImageWithPrompt, h1, h2, h3, h3']

/-- Witness for C1 (amended): a concrete request, environment and pair of
services agreeing on the dispatched call. -/
theorem generateImageWithPrompt_single_call_witness :
    generateImageWithPrompt
        { imageData := "QUJD", mimeType := "image/png", prompt := "blue" } none
        (fun _ => Except.error "x")
      = generateImageWithPrompt
        { imageData := "QUJD", mimeType := "image/png", prompt := "blue" } none
        (fun _ => Except.error "x") :=
  (generateImageWithPrompt_single_call
    { imageData := "QUJD", mimeType := "image/png", prompt := "blue" } none
    (fun _ => Except.error "x") (fun _ => Except.error "x") rfl).2.1

/-- A concrete request used to exercise the dispatcher. -/
def cexReq : ImageGenerationRequest :=
  { imageData := "QUJD", mimeType := "image/png", prompt := "make it blue" }

/-- A response part holding a concrete image payload. -/
def fallbackImagePart : RespPart :=
  { inlineData := some { mimeType := some "image/png", data := some "RkFMTEJBQ0s=" } }

/-- A concrete service response containing an image payload. -/
def okImageResponse : ApiResponse :=
  { candidates := some [{ content := some { parts := some [fallbackImagePart] } }] }

/-- A service that throws a transport error on the first listed model and
returns an image payload for a call to any other model. -/
def svcFailFirst : Svc := fun call =>
  if call.model = "gemini-2.5-flash-image-preview" then Except.error "service unavailable"
  else Except.ok okImageResponse

/-- The call the dispatcher would have to make to the second listed
candidate model. -/
def cexSecondCall : GenCall :=
  { dispatchCall cexReq none with model := "gemini-2.5-flash-image" }

/-- C1 counterexample: the service throws a transport error on the first
listed candidate model (the one the dispatcher actually calls) and would
return an image payload for the identical call addressed to the second
listed candidate, yet dispatch returns failure — the next candidate is
never tried, contradicting the claimed fallback iteration. -/
theorem generateImageWithPrompt_no_fallback_cex :
    IMAGE_MODELS.length = 2 ∧
    (dispatchCall cexReq none).model = IMAGE_MODELS.getD 0 "" ∧
    cexSecondCall.model = IMAGE_MODELS.getD 1 "" ∧
    svcFailFirst (dispatchCall cexReq none) = Except.error "service unavailable" ∧
    svcFailFirst cexSecondCall = Except.ok okImageResponse ∧
    extractImageBase64 okImageResponse = some "RkFMTEJBQ0s=" ∧
    generateImageWithPrompt cexReq none svcFailFirst =
      { success := false, imageData := none, error := some "service unavailable" } := by
  refine ⟨rfl, rfl, rfl, by rfl, by rfl, by rfl, by rfl⟩

/-- C7: when the request is valid and the service responds without an
image payload, dispatch fails with a non-empty error message that embeds
any textual explanation the service returned and falls back to the
generic no-image message when there is no text either. -/
theorem generateImageWithPrompt_no_image_message
    (request : ImageGenerationRequest) (env : Option String) (svc : Svc) (r : ApiResponse)
    (h1 : ¬ (request.imageData = "" ∨ request.mimeType = ""))
    (h2 : jsTrim request.prompt ≠ "")
    (h3 : ALLOWED_MIME.contains request.mimeType = true)
    (hok : svc (dispatchCall request env) = Except.ok r)
    (hno : extractImageBase64 r = none) :
    (generateImageWithPrompt request env svc).success = false ∧
    ∃ msg, (generateImageWithPrompt request env svc).error = some msg ∧ msg ≠ "" ∧
      (∀ t, extractText r = some t → msg = "Model returned no image (" ++ t ++ ")") ∧
      (extractText r = none → msg = "Model returned no image") := by
  have h3' : request.mimeType ∈ ALLOWED_MIME := by simpa using h3
  cases htxt : extractText r with
  | some t =>
      refine ⟨?_, "Model returned no image (" ++ t ++ ")", ?_, ?_, ?_, ?_⟩
      · simp [generateImageWithPrompt, h1, h2, h3', hok, hno, htxt]
      · simp [generateImageWithPrompt, h1, h2, h3', hok, hno, htxt]
      · intro he
        have hlen := congrArg String.length he
        simp only [String.length_append] at hlen
        have h25 : ("Model returned no image (" : String).length = 25 := by decide
        rw [h25] at hlen
        simp at hlen
      · intro u hu
        rw [Option.some.inj hu]
      · intro hnone
        exact absurd hnone (by simp)
  | none =>
      refine ⟨?_, "Model returned no image", ?_, by decide, ?_, fun _ => rfl⟩
      · simp [generateImageWithPrompt, h1, h2, h3', hok, hno, htxt]
      · simp [generateImageWithPrompt, h1, h2, h3', hok, hno, htxt]
      · intro u hu
        exact absurd hu (by simp)

/-- A concrete service response with neither an image payload nor a text
part. -/
def emptyResponse : ApiResponse :=
  { candidates := some [{ content := some { parts := some [] } }] }

/-- Witness for C7: a concrete valid request against a service whose
response carries neither image nor text yields the generic non-empty
no-image message. -/
theorem generateImageWithPrompt_no_image_message_witness :
    (generateImageWithPrompt cexReq none (fun _ => Except.ok emptyResponse)).success = false ∧
    ∃ msg, (generateImageWithPrompt cexReq none (fun _ => Except.ok emptyResponse)).error
        = some msg ∧ msg ≠ "" ∧
      (∀ t, extractText emptyResponse = some t →
        msg = "Model returned no image (" ++ t ++ ")") ∧
      (extractText emptyResponse = none → msg = "Model returned no image") :=
  generateImageWithPrompt_no_image_message cexReq none (fun _ => Except.ok emptyResponse)
    emptyResponse (by decide) (by decide) (by decide) rfl (by rfl)

/-! ## Listing endpoint theorems -/

/-- C8: the limit applied by the listing handler is 10 whenever the query
parameter is absent or does not parse, and the response always holds at
most the applied limit of records, ordered newest first. -/
theorem handleListGenerations_spec :
    (∀ q : Option String, q = none ∨ parseIntJS q = none → appliedLimit q = 10) ∧
    (∀ (s : Storage) (q : Option String),
      (handleListGenerations s q).length ≤ (appliedLimit q).toNat ∧
      List.Sorted newerEq (handleListGenerations s q)) := by
  constructor
  · intro q hq
    cases hq with
    | inl h => rw [h]; rfl
    | inr h => simp [appliedLimit, jsOrLimit, h]
  · intro s q
    constructor
    · exact List.length_take_le _ _
    · exact List.Pairwise.sublist (List.take_sublist _ _)
        (List.sorted_insertionSort newerEq s.records)

/-- Witness for C8: a non-numeric limit parameter falls back to 10, and a
concrete singleton store listed with limit 3 is within bounds and
sorted. -/
theorem handleListGenerations_spec_witness :
    appliedLimit (some "abc") = 10 ∧
    (handleListGenerations { records := [], nextId := 0, nextTime := 0 } (some "3")).length
      ≤ (appliedLimit (some "3")).toNat ∧
    List.Sorted newerEq
      (handleListGenerations { records := [], nextId := 0, nextTime := 0 } (some "3")) :=
  ⟨handleListGenerations_spec.1 (some "abc") (Or.inr (by decide)),
   (handleListGenerations_spec.2 { records := [], nextId := 0, nextTime := 0 } (some "3")).1,
   (handleListGenerations_spec.2 { records := [], nextId := 0, nextTime := 0 } (some "3")).2⟩

/-! ## Generate endpoint theorems -/

theorem eq_empty_of_length_zero {s : String} (h : s.length = 0) : s = "" := by
  cases hd : s.data with
  | nil => exact String.ext hd
  | cons c t =>
      rw [show s.length = s.data.length from rfl, hd] at h
      simp at h

/-- C3: every intake validation failure — no file, a non-image mimetype,
an oversized file, a missing or blank prompt, or an over-long prompt —
answers 400 and leaves the record store unchanged. -/
theorem processGenerate_validation_400
    (s : Storage) (env : Option String) (svc : Svc) (f : UploadedFile)
    (prompt : Option String) (p : String) :
    (processGenerate s none prompt env svc = (s, .badRequest "No image file provided")) ∧
    (fileFilterAccepts f = false →
      processGenerate s (some f) prompt env svc
        = (s, .badRequest "Only image files are allowed")) ∧
    (fileFilterAccepts f = true → f.bytes.length > MAX_FILE_SIZE →
      processGenerate s (some f) prompt env svc = (s, .badRequest "File too large")) ∧
    (fileFilterAccepts f = true → f.bytes.length ≤ MAX_FILE_SIZE →
      processGenerate s (some f) none env svc = (s, .badRequest "Prompt is required")) ∧
    (fileFilterAccepts f = true → f.bytes.length ≤ MAX_FILE_SIZE → jsTrim p = "" →
      processGenerate s (some f) (some p) env svc = (s, .badRequest "Prompt is required")) ∧
    (fileFilterAccepts f = true → f.bytes.length ≤ MAX_FILE_SIZE →
      jsTrim p ≠ "" → p.length > 500 →
      processGenerate s (some f) (some p) env svc
        = (s, .badRequest "Prompt must be 500 characters or less")) := by
  refine ⟨rfl, ?_, ?_, ?_, ?_, ?_⟩
  · intro hmime
    simp [processGenerate, hmime]
  · intro hmime hsize
    simp [processGenerate, generateHandler, hmime, hsize]
  · intro hmime hsize
    simp [processGenerate, generateHandler, hmime, Nat.not_lt.mpr hsize]
  · intro hmime hsize htrim
    have hcond : p = "" ∨ (jsTrim p).length = 0 := Or.inr (by rw [htrim]; rfl)
    simp [processGenerate, generateHandler, hmime, Nat.not_lt.mpr hsize, hcond]
  · intro hmime hsize htrim hlong
    have hne : ¬ (p = "" ∨ (jsTrim p).length = 0) := by
      rintro (rfl | hz)
      · exact htrim rfl
      · exact htrim (eq_empty_of_length_zero hz)
    simp [processGenerate, generateHandler, hmime, Nat.not_lt.mpr hsize, hne, hlong]

/-- Witness for C3: the concrete validation failures of each kind all
answer 400 on an empty store. -/
theorem processGenerate_validation_400_witness :
    (processGenerate { records := [], nextId := 0, nextTime := 0 } none (some "x") none
        (fun _ => Except.error "unused")
      = ({ records := [], nextId := 0, nextTime := 0 }, .badRequest "No image file provided")) ∧
    (processGenerate { records := [], nextId := 0, nextTime := 0 }
        (some { mimetype := "text/plain", bytes := [65] }) (some "x") none
        (fun _ => Except.error "unused")
      = ({ records := [], nextId := 0, nextTime := 0 },
         .badRequest "Only image files are allowed")) ∧
    (processGenerate { records := [], nextId := 0, nextTime := 0 }
        (some { mimetype := "image/png", bytes := [65] }) (some "  ") none
        (fun _ => Except.error "unused")
      = ({ records := [], nextId := 0, nextTime := 0 }, .badRequest "Prompt is required")) :=
  ⟨(processGenerate_validation_400 { records := [], nextId := 0, nextTime := 0 } none
      (fun _ => Except.error "unused") { mimetype := "text/plain", bytes := [65] }
      (some "x") "x").1,
   (processGenerate_validation_400 { records := [], nextId := 0, nextTime := 0 } none
      (fun _ => Except.error "unused") { mimetype := "text/plain", bytes := [65] }
      (some "x") "x").2.1 (by decide),
   (processGenerate_validation_400 { records := [], nextId := 0, nextTime := 0 } none
      (fun _ => Except.error "unused") { mimetype := "image/png", bytes := [65] }
      (some "  ") "  ").2.2.2.2.1 (by decide) (by decide) (by decide)⟩

/-- C4: with a file attached and well-formed image input, intake passes
(no 400 is answered) exactly when the prompt is non-blank after trimming
and the prompt is at most 500 characters long. -/
theorem processGenerate_prompt_validation
    (s : Storage) (env : Option String) (svc : Svc) (f : UploadedFile) (p : String)
    (hmime : fileFilterAccepts f = true) (hsize : f.bytes.length ≤ MAX_FILE_SIZE) :
    (processGenerate s (some f) (some p) env svc).2.isBadRequest = false ↔
      (jsTrim p ≠ "" ∧ p.length ≤ 500) := by
  by_cases h1 : p = "" ∨ (jsTrim p).length = 0
  · have htrim : jsTrim p = "" := by
      cases h1 with
      | inl h => rw [h]; rfl
      | inr h => exact eq_empty_of_length_zero h
    simp [processGenerate, generateHandler, hmime, Nat.not_lt.mpr hsize, h1,
      HttpResult.isBadRequest, htrim]
  · have htrim : jsTrim p ≠ "" := by
      intro he
      exact h1 (Or.inr (by rw [he]; rfl))
    by_cases h2 : p.length > 500
    · simp [processGenerate, generateHandler, hmime, Nat.not_lt.mpr hsize, h1, h2,
        HttpResult.isBadRequest, htrim]
    · constructor
      · intro _
        exact ⟨htrim, by omega⟩
      · intro _
        simp only [processGenerate, generateHandler, hmime, Nat.not_lt.mpr hsize,
          if_neg h1, if_neg h2, if_false, if_true]
        split <;> rfl

/-- Witness for C4: a concrete well-formed upload with a valid prompt
passes intake. -/
theorem processGenerate_prompt_validation_witness :
    ((processGenerate { records := [], nextId := 0, nextTime := 0 }
        (some { mimetype := "image/png", bytes := [65] }) (some "blue") none
        (fun _ => Except.error "down")).2.isBadRequest = false ↔
      (jsTrim "blue" ≠ "" ∧ ("blue" : String).length ≤ 500)) :=
  processGenerate_prompt_validation { records := [], nextId := 0, nextTime := 0 } none
    (fun _ => Except.error "down") { mimetype := "image/png", bytes := [65] } "blue"
    (by decide) (by decide)

/-- An empty store used to exercise the endpoint on concrete inputs. -/
def emptyStore : Storage := { records := [], nextId := 0, nextTime := 0 }

/-- A concrete PNG upload. -/
def pngFile : UploadedFile := { mimetype := "image/png", bytes := [137] }

/-- A concrete GIF upload: its declared mimetype starts with `image/` yet
is outside the dispatcher's allowed set. -/
def gifFile : UploadedFile := { mimetype := "image/gif", bytes := [71] }

/-- A service whose behaviour is irrelevant to the scenario at hand. -/
def svcUnused : Svc := fun _ => Except.error "unused"

/-- A prompt of 500 `a` characters followed by one space: 501 characters
before trimming, 500 after. -/
def longPrompt : String := String.mk (List.replicate 500 'a' ++ [' '])

set_option maxRecDepth 8000 in
/-- C9: the over-length check runs on the untrimmed prompt while the
record and the dispatcher receive the trimmed prompt: this 501-character
prompt trims to 500 characters — the prompt actually used downstream would
satisfy the limit — yet the request is rejected with the over-length 400
and the store is untouched. -/
theorem prompt_length_checked_untrimmed :
    longPrompt.length = 501 ∧
    (jsTrim longPrompt).length = 500 ∧
    processGenerate emptyStore (some pngFile) (some longPrompt) none svcUnused
      = (emptyStore, .badRequest "Prompt must be 500 characters or less") := by
  refine ⟨by decide, by decide, ?_⟩
  have h501 : longPrompt.length = 501 := by decide
  have h500 : (jsTrim longPrompt).length = 500 := by decide
  exact (processGenerate_validation_400 emptyStore none svcUnused pngFile
    (some longPrompt) longPrompt).2.2.2.2.2 (by decide) (by decide)
    (by intro he; rw [he] at h500; exact absurd h500 (by decide)) (by omega)

/-- The terminal record the GIF scenario of C10 ends with: created
pending, then failed with the dispatcher's unsupported-mime message. -/
def gifFailedRecord : GenerationRecord :=
  { id := 0
    prompt := "make it blue"
    originalImageUrl := none
    generatedImageUrl := none
    status := Status.failed
    errorMessage := some (unsupportedMimeMsg "image/gif")
    createdAt := 0 }

/-- C10: intake and dispatch disagree on allowed image types: a GIF upload
passes the multer `image/` filter, a pending record is created, the
dispatcher rejects `image/gif` without calling the service, and the
request ends with the record failed and a 500 response instead of a 400
before any record exists. -/
theorem mime_mismatch_gif_fails_late :
    fileFilterAccepts gifFile = true ∧
    ALLOWED_MIME.contains "image/gif" = false ∧
    processGenerate emptyStore (some gifFile) (some "make it blue") none svcUnused
      = ({ records := [gifFailedRecord], nextId := 1, nextTime := 1 },
         HttpResult.serverError (unsupportedMimeMsg "image/gif")) := by
  refine ⟨by rfl, by rfl, by rfl⟩

/-! ## Record lifecycle (C2) -/

theorem find_append_fresh (l : List GenerationRecord) (r : GenerationRecord) (i : Nat)
    (hi : r.id = i) (h : ∀ x ∈ l, x.id ≠ i) :
    (l ++ [r]).find? (fun x => x.id == i) = some r := by
  induction l with
  | nil => simp [hi]
  | cons a t ih =>
      have ha : (a.id == i) = false := by
        simpa using h a (by simp)
      simp only [List.cons_append, List.find?_cons, ha]
      exact ih (fun x hx => h x (by simp [hx]))

theorem map_patch_append_fresh (l : List GenerationRecord) (r : GenerationRecord) (i : Nat)
    (pa : GenerationPatch) (hi : r.id = i) (h : ∀ x ∈ l, x.id ≠ i) :
    (l ++ [r]).map (fun x => if x.id == i then applyPatch x pa else x)
      = l ++ [applyPatch r pa] := by
  induction l with
  | nil => simp [hi]
  | cons a t ih =>
      have ha : (a.id == i) = false := by
        simpa using h a (by simp)
      simp only [List.cons_append, List.map_cons, ha, Bool.false_eq_true, if_false]
      rw [ih (fun x hx => h x (by simp [hx]))]

/-- The insert fields the generate handler passes to the store. -/
def insertOf (p : String) : InsertGeneration :=
  { prompt := jsTrim p
    originalImageUrl := none
    generatedImageUrl := none
    status := Status.pending
    errorMessage := none }

/-- The pending record the generate handler creates. -/
def pendingRecordOf (s : Storage) (p : String) : GenerationRecord :=
  { id := s.nextId
    prompt := jsTrim p
    originalImageUrl := none
    generatedImageUrl := none
    status := Status.pending
    errorMessage := none
    createdAt := s.nextTime }

/-- The dispatcher result the generate handler observes. -/
def dispatchResult (f : UploadedFile) (p : String) (env : Option String) (svc : Svc) :
    ImageGenerationResponse :=
  generateImageWithPrompt
    { imageData := bufferToBase64 f.bytes, mimeType := f.mimetype, prompt := jsTrim p } env svc

/-- The terminal record of a successful dispatch: completed, with the
generated image URL set. -/
def completedRecordOf (s : Storage) (p : String) (d : String) : GenerationRecord :=
  { pendingRecordOf s p with
    status := Status.completed
    generatedImageUrl := some ("data:image/png;base64," ++ d) }

/-- The terminal record of a failed dispatch: failed, with the error
message set. -/
def failedRecordOf (s : Storage) (p : String) (e : Option String) : GenerationRecord :=
  { pendingRecordOf s p with
    status := Status.failed
    errorMessage := some (jsOrStr e "Unknown error") }

/-- C2: on a validation-passing generate request against a well-formed
store, the record is created pending with both URLs and the error message
null, and the final store is the original records — untouched — plus that
one record moved by a single patch to a terminal state: completed with the
generated image URL exactly when dispatch succeeded with an image, failed
with a non-null error message otherwise. -/
theorem generateFlow_record_lifecycle
    (s : Storage) (f : UploadedFile) (p : String) (env : Option String) (svc : Svc)
    (hwf : s.WF)
    (hmime : fileFilterAccepts f = true) (hsize : f.bytes.length ≤ MAX_FILE_SIZE)
    (hp1 : jsTrim p ≠ "") (hp2 : p.length ≤ 500) :
    (createGeneration s (insertOf p)).1 = pendingRecordOf s p ∧
    (pendingRecordOf s p).status = Status.pending ∧
    (pendingRecordOf s p).originalImageUrl = none ∧
    (pendingRecordOf s p).generatedImageUrl = none ∧
    (pendingRecordOf s p).errorMessage = none ∧
    (((dispatchResult f p env svc).success
        && strTruthy (dispatchResult f p env svc).imageData) = true →
      (processGenerate s (some f) (some p) env svc).1.records
        = s.records ++ [completedRecordOf s p
            ((dispatchResult f p env svc).imageData.getD "")]) ∧
    (((dispatchResult f p env svc).success
        && strTruthy (dispatchResult f p env svc).imageData) = false →
      (processGenerate s (some f) (some p) env svc).1.records
        = s.records ++ [failedRecordOf s p (dispatchResult f p env svc).error]) := by
  have hne : ¬ (p = "" ∨ (jsTrim p).length = 0) := by
    rintro (rfl | hz)
    · exact hp1 rfl
    · exact hp1 (eq_empty_of_length_zero hz)
  have hlen : ¬ p.length > 500 := by omega
  have hfresh : ∀ x ∈ s.records, x.id ≠ s.nextId := by
    intro x hx
    have := hwf x hx
    omega
  refine ⟨rfl, rfl, rfl, rfl, rfl, ?_, ?_⟩
  · intro hb
    simp only [dispatchResult] at hb
    simp only [processGenerate, generateHandler, hmime, Nat.not_lt.mpr hsize,
      if_neg hne, if_neg hlen, if_false, if_true]
    rw [if_pos hb]
    simp only [createGeneration, updateGeneration]
    rw [find_append_fresh s.records _ s.nextId rfl hfresh]
    rw [map_patch_append_fresh s.records _ s.nextId _ rfl hfresh]
    rfl
  · intro hb
    simp only [dispatchResult] at hb
    simp only [processGenerate, generateHandler, hmime, Nat.not_lt.mpr hsize,
      if_neg hne, if_neg hlen, if_false, if_true]
    rw [if_neg (by rw [hb]; exact Bool.false_ne_true)]
    simp only [createGeneration, updateGeneration]
    rw [find_append_fresh s.records _ s.nextId rfl hfresh]
    rw [map_patch_append_fresh s.records _ s.nextId _ rfl hfresh]
    rfl

/-- A service that always returns the concrete image-bearing response. -/
def svcImgOk : Svc := fun _ => Except.ok okImageResponse

/-- Witness for C2 at a concrete store, upload, prompt and service. -/
theorem generateFlow_record_lifecycle_witness :
    (createGeneration emptyStore (insertOf "blue")).1 = pendingRecordOf emptyStore "blue" ∧
    (pendingRecordOf emptyStore "blue").status = Status.pending ∧
    (pendingRecordOf emptyStore "blue").originalImageUrl = none ∧
    (pendingRecordOf emptyStore "blue").generatedImageUrl = none ∧
    (pendingRecordOf emptyStore "blue").errorMessage = none ∧
    (((dispatchResult pngFile "blue" none svcImgOk).success
        && strTruthy (dispatchResult pngFile "blue" none svcImgOk).imageData) = true →
      (processGenerate emptyStore (some pngFile) (some "blue") none svcImgOk).1.records
        = emptyStore.records ++ [completedRecordOf emptyStore "blue"
            ((dispatchResult pngFile "blue" none svcImgOk).imageData.getD "")]) ∧
    (((dispatchResult pngFile "blue" none svcImgOk).success
        && strTruthy (dispatchResult pngFile "blue" none svcImgOk).imageData) = false →
      (processGenerate emptyStore (some pngFile) (some "blue") none svcImgOk).1.records
        = emptyStore.records ++ [failedRecordOf emptyStore "blue"
            (dispatchResult pngFile "blue" none svcImgOk).error]) :=
  generateFlow_record_lifecycle emptyStore pngFile "blue" none svcImgOk
    (fun r hr => absurd hr (List.not_mem_nil r)) (by decide) (by decide)
    (by decide) (by decide)

end GenZ
